import Mathlib

/-
Verification of the cooling-tower data-processing core
(src/backend/theoretical_calculations.py and src/backend/process_data.py).

Modelling conventions:
- Python floats are idealized as real numbers; float arithmetic is exact
  real arithmetic.
- A raw payload value is either numeric (anything Python float() accepts,
  including numeric strings) or a non-numeric token that float() rejects.
- Python exceptions raised and caught inside the module are modelled with
  Except; the textual message of each ValueError is modelled by a
  constructor of an error type carrying exactly the dynamic values that the
  Python format string interpolates.  The fixed text of each format string
  is recorded in the constructor doc comment.
- datetime.now() fields (processed_at, the timestamp of an ErrorRecord) are
  wall-clock values outside the data path and are not modelled.
- Python round(x, n) rounds half-to-even on binary floats; over the reals
  it is idealized as rounding x*10^n to the nearest integer.  No claim
  depends on tie behaviour.
-/

namespace CoolingTower

/-- Tolerance constant TEMPERATURE_TOLERANCE = 0.1 from
theoretical_calculations.py. -/
def TEMPERATURE_TOLERANCE : ℝ := 0.1

/-- A raw field value as delivered in the decoded payload: num x is any
value that Python float() converts to the number x (floats, ints, numeric
strings); nonNum is a present value that float() rejects with
ValueError/TypeError. -/
inductive Val where
  | num (x : ℝ)
  | nonNum

/-- Errors raised (as ValueError) inside the calculation library and the
efficiency guard of process_data.  Each constructor stands for the Python
message text with the carried values interpolated. -/
inductive CalcErr where
  /-- Message: Relative humidity must be between 0-100%, got {rh}%. -/
  | humidityOutOfRange (rh : ℝ)
  /-- Message: Temperature must be between -50°C to 60°C, got {t}°C. -/
  | tempOutOfRange (t : ℝ)
  /-- Message: Water inlet temperature ({tin}°C) must be higher than outlet
  ({tout}°C) by at least 0.1°C.  Current difference: {tin - tout}°C. -/
  | inletNotHotter (tin tout : ℝ)
  /-- Message: Water flow must be positive, got {flow} L/min. -/
  | flowNotPositive (flow : ℝ)
  /-- Message: Cannot calculate efficiency: wet bulb temperature
  unavailable. Raised in process_data when the wet-bulb step failed. -/
  | wetBulbUnavailable

/-- Entries of the calculation_errors list of a ProcessedReading.  Each
constructor stands for the Python string with the given prefix followed by
the text of the carried CalcErr (itself wrapped by the library function in
a Cannot-calculate prefix before re-raising). -/
inductive CalcErrorMsg where
  | wet_bulb_calculation_error (e : CalcErr)
  | cooling_efficiency_calculation_error (e : CalcErr)
  | cooling_capacity_calculation_error (e : CalcErr)

/-- Messages of the ValueError raised by the validation phase of
process_data; each constructor stands for the corresponding Python format
string. -/
inductive ValidationMsg where
  /-- Message: Missing required fields: {joined field names}. -/
  | missingRequiredFields (fields : List String)
  /-- Message: Invalid sensor data (value = -999): {joined field names}. -/
  | invalidSensorData (fields : List String)
  /-- Message: Invalid water flow rate: {flow}. -/
  | invalidWaterFlow (flow : ℝ)
  /-- Message: Invalid humidity: {h}%. -/
  | invalidHumidity (h : ℝ)

/-- Field names mentioned in a validation message (the aggregated list for
the two list-carrying messages, none for the range-check messages). -/
def ValidationMsg.namedFields : ValidationMsg → List String
  | .missingRequiredFields fs => fs
  | .invalidSensorData fs => fs
  | .invalidWaterFlow _ => []
  | .invalidHumidity _ => []

/-- RawReading: the decoded payload handed to process_data.  Absent keys
are none (dict.get returns None); device_id is a string, the numeric
fields carry Val. -/
structure RawReading where
  device_id : Option String
  timestamp : Option Val
  flow_rate : Option Val
  water_temp_inlet : Option Val
  water_temp_outlet : Option Val
  air_temp_inlet : Option Val
  air_humidity_inlet : Option Val

/-- ProcessedReading: the record assembled by process_data on the success
path (processed_at omitted: wall clock). -/
structure ProcessedReading where
  device_id : Option String
  timestamp : Option Val
  water_flow_lpm : ℝ
  water_temp_in : ℝ
  water_temp_out : ℝ
  air_temp_in : ℝ
  air_humidity_in : ℝ
  wet_bulb_temp_in : Option ℝ
  cooling_efficiency : Option ℝ
  cooling_capacity : Option ℝ
  calculation_errors : List CalcErrorMsg
  data_quality : String
  processing_status : String

/-- ErrorRecord: the record returned when validation fails (timestamp
omitted: wall clock). -/
structure ErrorRecord where
  error : String
  message : ValidationMsg
  processing_status : String

/-- Result of process_data: a ProcessedReading or an ErrorRecord. -/
inductive ProcessResult where
  | processed (p : ProcessedReading)
  | errored (e : ErrorRecord)

/-- Idealized Python round(x, n): round x*10^n to the nearest integer,
divide back. -/
noncomputable def pyround (x : ℝ) (n : ℕ) : ℝ := (round (x * 10 ^ n) : ℤ) / 10 ^ n

/-- Models float(v or 0) on a validated field: the numeric value when
present, 0 when the field is falsy/absent.  After validation the none and
nonNum branches are unreachable (none is a missing field, nonNum an
invalid one). -/
def optToR : Option Val → ℝ
  | some (.num x) => x
  | some .nonNum => 0
  | none => 0

/-- wet_bulb_stull from theoretical_calculations.py: bounds checks on RH
and T in source order, then the Stull (2011) closed formula. -/
noncomputable def wet_bulb_stull (temp_celsius relative_humidity : ℝ) :
    Except CalcErr ℝ :=
  if relative_humidity < 0 ∨ relative_humidity > 100 then
    .error (.humidityOutOfRange relative_humidity)
  else if temp_celsius < -50 ∨ temp_celsius > 60 then
    .error (.tempOutOfRange temp_celsius)
  else
    .ok (temp_celsius * Real.arctan (0.151977 * Real.sqrt (relative_humidity + 8.313659))
      + Real.arctan (temp_celsius + relative_humidity)
      - Real.arctan (relative_humidity - 1.676331)
      + 0.00391838 * relative_humidity ^ (1.5 : ℝ)
        * Real.arctan (0.023101 * relative_humidity)
      - 4.686035)

/-- calculate_cooling_tower_efficiency from theoretical_calculations.py:
tolerance checks on the temperature drop, wet-bulb driving-force check,
then the clamped ratio. -/
noncomputable def calculate_cooling_tower_efficiency
    (water_temp_in water_temp_out wet_bulb_temp_in : ℝ) : Except CalcErr ℝ :=
  let delta_T := water_temp_in - water_temp_out
  if delta_T < -TEMPERATURE_TOLERANCE then
    .error (.inletNotHotter water_temp_in water_temp_out)
  else if |delta_T| ≤ TEMPERATURE_TOLERANCE then
    .ok 0
  else if water_temp_in ≤ wet_bulb_temp_in then
    .ok 0
  else
    let efficiency := delta_T / (water_temp_in - wet_bulb_temp_in) * 100
    .ok (if efficiency < 0 then 0 else if efficiency > 100 then 100 else efficiency)

/-- calculate_cooling_capacity from theoretical_calculations.py: positive
flow check, tolerance checks on the temperature drop, then
flow_kg_s * cp_water * delta_T with flow_kg_s = (flow/60)*(1000/1000) and
cp_water = 4.186. -/
noncomputable def calculate_cooling_capacity
    (water_flow_lpm water_temp_in water_temp_out : ℝ) : Except CalcErr ℝ :=
  if water_flow_lpm ≤ 0 then
    .error (.flowNotPositive water_flow_lpm)
  else
    let delta_T := water_temp_in - water_temp_out
    if delta_T < -TEMPERATURE_TOLERANCE then
      .error (.inletNotHotter water_temp_in water_temp_out)
    else if |delta_T| ≤ TEMPERATURE_TOLERANCE then
      .ok 0
    else
      .ok (water_flow_lpm / 60 * (1000 / 1000) * 4.186 * delta_T)

/-- assess_data_quality from process_data.py: three additive scores summed
and thresholded into a label. -/
noncomputable def assess_data_quality
    (water_temp_in water_temp_out water_flow_lpm air_humidity_in : ℝ) : String :=
  let delta_T := |water_temp_in - water_temp_out|
  let s1 : ℕ := if delta_T > 1.0 then 3 else if delta_T > 0.5 then 2
    else if delta_T > 0.1 then 1 else 0
  let s2 : ℕ := if water_flow_lpm > 1.0 then 2
    else if water_flow_lpm > 0.1 then 1 else 0
  let s3 : ℕ := if 20 ≤ air_humidity_in ∧ air_humidity_in ≤ 80 then 2
    else if 10 ≤ air_humidity_in ∧ air_humidity_in ≤ 90 then 1 else 0
  let quality_score := s1 + s2 + s3
  if quality_score ≥ 6 then "excellent"
  else if quality_score ≥ 4 then "good"
  else if quality_score ≥ 2 then "fair"
  else "poor"

/-- The five numeric required fields of process_data, in the iteration
order of required_fields, paired with the names used in its error
messages (device_id is handled separately: it gets only the missing
check). -/
def RawReading.numeric_required (r : RawReading) : List (String × Option Val) :=
  [("water_flow_lpm", r.flow_rate),
   ("water_temp_in", r.water_temp_inlet),
   ("water_temp_out", r.water_temp_outlet),
   ("air_temp_in", r.air_temp_inlet),
   ("air_humidity_in", r.air_humidity_inlet)]

/-- missing_fields accumulated by the validation loop: fields whose value
is None, in field order (device_id first). -/
def missing_fields (r : RawReading) : List String :=
  (if r.device_id.isNone then ["device_id"] else []) ++
    r.numeric_required.filterMap fun p => if p.2.isNone then some p.1 else none

/-- invalid_fields accumulated by the validation loop: numeric fields that
are present but equal to the sentinel -999, or present and non-numeric. -/
noncomputable def invalid_fields (r : RawReading) : List String :=
  r.numeric_required.filterMap fun p =>
    match p.2 with
    | some (.num x) => if x = -999 then some p.1 else none
    | some .nonNum => some p.1
    | none => none

/-- Status expression of the assembled record in process_data: success
when calculation_errors is empty (falsy), partial_success otherwise. -/
def statusOf : List CalcErrorMsg → String
  | [] => "success"
  | _ :: _ => "partial_success"

/-- Calculation phase of process_data (the body after validation):
wet-bulb, efficiency guarded on wet-bulb availability, capacity, quality
assessment, record assembly.  Each step appends its error to
calculation_errors instead of aborting. -/
noncomputable def build_processed (r : RawReading) : ProcessedReading :=
  let water_flow_lpm := optToR r.flow_rate
  let water_temp_in := optToR r.water_temp_inlet
  let water_temp_out := optToR r.water_temp_outlet
  let air_temp_in := optToR r.air_temp_inlet
  let air_humidity_in := optToR r.air_humidity_inlet
  let data_quality :=
    assess_data_quality water_temp_in water_temp_out water_flow_lpm air_humidity_in
  let wb := wet_bulb_stull air_temp_in air_humidity_in
  let eff : Except CalcErr ℝ :=
    match wb with
    | .ok w => calculate_cooling_tower_efficiency water_temp_in water_temp_out w
    | .error _ => .error .wetBulbUnavailable
  let cap := calculate_cooling_capacity water_flow_lpm water_temp_in water_temp_out
  let calculation_errors : List CalcErrorMsg :=
    (match wb with
      | .ok _ => []
      | .error e => [.wet_bulb_calculation_error e]) ++
    (match eff with
      | .ok _ => []
      | .error e => [.cooling_efficiency_calculation_error e]) ++
    (match cap with
      | .ok _ => []
      | .error e => [.cooling_capacity_calculation_error e])
  { device_id := r.device_id
    timestamp := r.timestamp
    water_flow_lpm := pyround water_flow_lpm 2
    water_temp_in := pyround water_temp_in 2
    water_temp_out := pyround water_temp_out 2
    air_temp_in := pyround air_temp_in 2
    air_humidity_in := pyround air_humidity_in 1
    wet_bulb_temp_in := wb.toOption.map (pyround · 2)
    cooling_efficiency := eff.toOption.map (pyround · 2)
    cooling_capacity := cap.toOption.map (pyround · 2)
    calculation_errors := calculation_errors
    data_quality := data_quality
    processing_status := statusOf calculation_errors }

/-- process_data from process_data.py: validation raises in source order
(missing fields, then sentinel/non-numeric fields, then the flow and
humidity range checks), each caught at the boundary as a
data_validation_error ErrorRecord; once validation passes the record is
built by the fault-isolated calculation phase. -/
noncomputable def process_data (r : RawReading) : ProcessResult :=
  if missing_fields r ≠ [] then
    .errored ⟨"data_validation_error",
      .missingRequiredFields (missing_fields r), "failed"⟩
  else if invalid_fields r ≠ [] then
    .errored ⟨"data_validation_error",
      .invalidSensorData (invalid_fields r), "failed"⟩
  else if optToR r.flow_rate < 0 then
    .errored ⟨"data_validation_error",
      .invalidWaterFlow (optToR r.flow_rate), "failed"⟩
  else if optToR r.air_humidity_inlet < 0 ∨ optToR r.air_humidity_inlet > 100 then
    .errored ⟨"data_validation_error",
      .invalidHumidity (optToR r.air_humidity_inlet), "failed"⟩
  else
    .processed (build_processed r)

/-- Validation succeeds on r: no missing field, no invalid field, and both
range checks pass. -/
def passes_validation (r : RawReading) : Prop :=
  missing_fields r = [] ∧ invalid_fields r = [] ∧
    ¬ optToR r.flow_rate < 0 ∧
    ¬ (optToR r.air_humidity_inlet < 0 ∨ optToR r.air_humidity_inlet > 100)

/-- The scoring table as the specification states it (section 4.2
assess_quality), written from the spec wording for comparison with the
source definition assess_data_quality. -/
noncomputable def assess_quality_spec
    (water_temp_in water_temp_out water_flow_lpm air_humidity_in : ℝ) : String :=
  let score : ℕ :=
    (if |water_temp_in - water_temp_out| > 1.0 then 3
      else if |water_temp_in - water_temp_out| > 0.5 then 2
      else if |water_temp_in - water_temp_out| > 0.1 then 1 else 0) +
    (if water_flow_lpm > 1.0 then 2
      else if water_flow_lpm > 0.1 then 1 else 0) +
    (if 20 ≤ air_humidity_in ∧ air_humidity_in ≤ 80 then 2
      else if 10 ≤ air_humidity_in ∧ air_humidity_in ≤ 90 then 1 else 0)
  if score ≥ 6 then "excellent"
  else if score ≥ 4 then "good"
  else if score ≥ 2 then "fair"
  else "poor"

/-- Fully valid reading: the worked example of the specification. -/
def rW1 : RawReading :=
  { device_id := some "T1", timestamp := none
    flow_rate := some (.num 5.555555)
    water_temp_inlet := some (.num 28)
    water_temp_outlet := some (.num 26.6875)
    air_temp_inlet := some (.num 28.6)
    air_humidity_inlet := some (.num 49.5) }

/-- Valid reading whose air temperature 70°C makes the wet-bulb step
fail its upper bound of 60°C. -/
def rEx2 : RawReading :=
  { device_id := some "T1", timestamp := none
    flow_rate := some (.num 5)
    water_temp_inlet := some (.num 30)
    water_temp_outlet := some (.num 25)
    air_temp_inlet := some (.num 70)
    air_humidity_inlet := some (.num 50) }

/-- Valid reading whose air temperature 100°C makes the wet-bulb step
fail its upper bound of 60°C. -/
def rW3 : RawReading :=
  { device_id := some "T1", timestamp := none
    flow_rate := some (.num 5)
    water_temp_inlet := some (.num 30)
    water_temp_outlet := some (.num 25)
    air_temp_inlet := some (.num 100)
    air_humidity_inlet := some (.num 50) }

/-- Reading with one missing required field (water_temp_inlet absent) and
one sentinel-invalid field (flow_rate = -999). -/
def r6ce : RawReading :=
  { device_id := some "T1", timestamp := none
    flow_rate := some (.num (-999))
    water_temp_inlet := none
    water_temp_outlet := some (.num 25)
    air_temp_inlet := some (.num 30)
    air_humidity_inlet := some (.num 50) }

/-- Reading with two invalid required fields (flow_rate = -999 and a
non-numeric humidity) and nothing missing. -/
def r6inv : RawReading :=
  { device_id := some "T1", timestamp := none
    flow_rate := some (.num (-999))
    water_temp_inlet := some (.num 30)
    water_temp_outlet := some (.num 25)
    air_temp_inlet := some (.num 30)
    air_humidity_inlet := some .nonNum }

/-- Reading with device_id absent and flow_rate carrying the sentinel
value -999. -/
def r7ce : RawReading :=
  { device_id := none, timestamp := none
    flow_rate := some (.num (-999))
    water_temp_inlet := some (.num 30)
    water_temp_outlet := some (.num 25)
    air_temp_inlet := some (.num 30)
    air_humidity_inlet := some (.num 50) }

/-- Reading whose only offending field is the sentinel flow_rate = -999. -/
def r7w : RawReading :=
  { device_id := some "T1", timestamp := none
    flow_rate := some (.num (-999))
    water_temp_inlet := some (.num 30)
    water_temp_outlet := some (.num 25)
    air_temp_inlet := some (.num 30)
    air_humidity_inlet := some (.num 50) }

/-- Reading with flow_rate exactly 0 and every other field valid. -/
def rW10 : RawReading :=
  { device_id := some "T1", timestamp := none
    flow_rate := some (.num 0)
    water_temp_inlet := some (.num 30)
    water_temp_outlet := some (.num 25)
    air_temp_inlet := some (.num 28)
    air_humidity_inlet := some (.num 50) }

/-! Helper lemmas shared by the claim theorems. -/

/-- Clamping by two nested conditionals agrees with max/min clamping. -/
theorem clamp_eq (e : ℝ) :
    (if e < 0 then (0 : ℝ) else if e > 100 then 100 else e) = max 0 (min 100 e) := by
  rcases lt_or_le e 0 with h | h
  · rw [if_pos h, max_eq_left (le_trans (min_le_right _ _) h.le)]
  · rw [if_neg (not_lt.mpr h)]
    rcases lt_or_le 100 e with h2 | h2
    · rw [if_pos h2, min_eq_left h2.le, max_eq_right (by norm_num : (0:ℝ) ≤ 100)]
    · rw [if_neg (not_lt.mpr h2), min_eq_right h2, max_eq_right h]

/-- statusOf of a nonempty list is partial_success. -/
theorem statusOf_ne_nil {l : List CalcErrorMsg} (h : l ≠ []) :
    statusOf l = "partial_success" := by
  cases l with
  | nil => exact absurd rfl h
  | cons a t => rfl

/-- When validation succeeds, process_data reaches the calculation phase
and returns the assembled record. -/
theorem process_data_eq_of_valid (r : RawReading)
    (h1 : missing_fields r = []) (h2 : invalid_fields r = [])
    (h3 : ¬ optToR r.flow_rate < 0)
    (h4 : ¬ (optToR r.air_humidity_inlet < 0 ∨ optToR r.air_humidity_inlet > 100)) :
    process_data r = .processed (build_processed r) := by
  unfold process_data
  rw [if_neg (by simp [h1]), if_neg (by simp [h2]), if_neg h3, if_neg h4]

/-- Record projections of build_processed, read off from the record
assembly. -/
theorem build_processed_cooling_capacity (r : RawReading) :
    (build_processed r).cooling_capacity =
      (calculate_cooling_capacity (optToR r.flow_rate) (optToR r.water_temp_inlet)
        (optToR r.water_temp_outlet)).toOption.map (pyround · 2) := rfl

/-- Wet-bulb projection of build_processed. -/
theorem build_processed_wet_bulb (r : RawReading) :
    (build_processed r).wet_bulb_temp_in =
      (wet_bulb_stull (optToR r.air_temp_inlet)
        (optToR r.air_humidity_inlet)).toOption.map (pyround · 2) := rfl

/-- Claim C4: cooling efficiency follows the ordered edge-case policy: a
reversed drop beyond tolerance fails with the invalid-input error, a drop
within tolerance returns 0.0 without error, an inlet not above the
wet-bulb temperature returns 0.0 without error, and otherwise the ratio
(T_in - T_out)/(T_in - T_wb)*100 is returned clamped to [0,100]; in
particular the returned value always lies in [0,100] in that case. -/
theorem efficiency_edge_case_policy :
    (∀ tin tout twb : ℝ, tin - tout < -(0.1:ℝ) →
      calculate_cooling_tower_efficiency tin tout twb =
        .error (.inletNotHotter tin tout)) ∧
    (∀ tin tout twb : ℝ, ¬ tin - tout < -(0.1:ℝ) → |tin - tout| ≤ (0.1:ℝ) →
      calculate_cooling_tower_efficiency tin tout twb = .ok 0) ∧
    (∀ tin tout twb : ℝ, (0.1:ℝ) < tin - tout → tin ≤ twb →
      calculate_cooling_tower_efficiency tin tout twb = .ok 0) ∧
    (∀ tin tout twb : ℝ, (0.1:ℝ) < tin - tout → twb < tin →
      calculate_cooling_tower_efficiency tin tout twb =
        .ok (max 0 (min 100 ((tin - tout) / (tin - twb) * 100))) ∧
      max 0 (min 100 ((tin - tout) / (tin - twb) * 100)) ∈ Set.Icc (0:ℝ) 100) := by
  refine ⟨?_, ?_, ?_, ?_⟩
  · intro tin tout twb h
    simp only [calculate_cooling_tower_efficiency, TEMPERATURE_TOLERANCE]
    rw [if_pos h]
  · intro tin tout twb h1 h2
    simp only [calculate_cooling_tower_efficiency, TEMPERATURE_TOLERANCE]
    rw [if_neg h1, if_pos h2]
  · intro tin tout twb h1 h2
    simp only [calculate_cooling_tower_efficiency, TEMPERATURE_TOLERANCE]
    rw [if_neg (by linarith), if_neg (not_le.mpr (lt_of_lt_of_le h1 (le_abs_self _))),
      if_pos h2]
  · intro tin tout twb h1 h2
    constructor
    · simp only [calculate_cooling_tower_efficiency, TEMPERATURE_TOLERANCE]
      rw [if_neg (by linarith), if_neg (not_le.mpr (lt_of_lt_of_le h1 (le_abs_self _))),
        if_neg (not_le.mpr h2), clamp_eq]
    · exact Set.mem_Icc.mpr ⟨le_max_left _ _, max_le (by norm_num) (min_le_left _ _)⟩

/-- Witness for C4: the four branches at concrete inputs; the last one
evaluates to (30-25)/(30-20)*100 = 50, inside [0,100]. -/
theorem efficiency_edge_case_policy_witness :
    calculate_cooling_tower_efficiency 20 25 10 = .error (.inletNotHotter 20 25) ∧
    calculate_cooling_tower_efficiency 25 25 10 = .ok 0 ∧
    calculate_cooling_tower_efficiency 25 24 30 = .ok 0 ∧
    (calculate_cooling_tower_efficiency 30 25 20 =
        .ok (max 0 (min 100 ((30 - 25) / ((30:ℝ) - 20) * 100))) ∧
      max 0 (min 100 ((30 - 25) / ((30:ℝ) - 20) * 100)) ∈ Set.Icc (0:ℝ) 100) :=
  ⟨efficiency_edge_case_policy.1 20 25 10 (by norm_num),
    efficiency_edge_case_policy.2.1 25 25 10 (by norm_num) (by norm_num),
    efficiency_edge_case_policy.2.2.1 25 24 30 (by norm_num) (by norm_num),
    efficiency_edge_case_policy.2.2.2 30 25 20 (by norm_num) (by norm_num)⟩

/-- Claim C5: cooling capacity fails with the invalid-input error whenever
flow is nonpositive; with a reversed drop beyond tolerance it fails; with
a drop within tolerance it returns 0.0 without error; otherwise it returns
(flow/60) * 4.186 * (T_in - T_out) kW. -/
theorem capacity_edge_case_policy :
    (∀ flow tin tout : ℝ, flow ≤ 0 →
      calculate_cooling_capacity flow tin tout = .error (.flowNotPositive flow)) ∧
    (∀ flow tin tout : ℝ, 0 < flow → tin - tout < -(0.1:ℝ) →
      calculate_cooling_capacity flow tin tout = .error (.inletNotHotter tin tout)) ∧
    (∀ flow tin tout : ℝ, 0 < flow → ¬ tin - tout < -(0.1:ℝ) → |tin - tout| ≤ (0.1:ℝ) →
      calculate_cooling_capacity flow tin tout = .ok 0) ∧
    (∀ flow tin tout : ℝ, 0 < flow → (0.1:ℝ) < tin - tout →
      calculate_cooling_capacity flow tin tout =
        .ok (flow / 60 * 4.186 * (tin - tout))) := by
  refine ⟨?_, ?_, ?_, ?_⟩
  · intro flow tin tout h
    simp only [calculate_cooling_capacity, TEMPERATURE_TOLERANCE]
    rw [if_pos h]
  · intro flow tin tout h0 h
    simp only [calculate_cooling_capacity, TEMPERATURE_TOLERANCE]
    rw [if_neg (not_le.mpr h0), if_pos h]
  · intro flow tin tout h0 h1 h2
    simp only [calculate_cooling_capacity, TEMPERATURE_TOLERANCE]
    rw [if_neg (not_le.mpr h0), if_neg h1, if_pos h2]
  · intro flow tin tout h0 h1
    simp only [calculate_cooling_capacity, TEMPERATURE_TOLERANCE]
    rw [if_neg (not_le.mpr h0), if_neg (by linarith),
      if_neg (not_le.mpr (lt_of_lt_of_le h1 (le_abs_self _)))]
    norm_num

/-- Witness for C5: the four branches at concrete inputs, including the
tolerance boundary T_in - T_out = 0.1 exactly yielding 0.0 without
error. -/
theorem capacity_edge_case_policy_witness :
    calculate_cooling_capacity 0 30 25 = .error (.flowNotPositive 0) ∧
    calculate_cooling_capacity 5 20 25 = .error (.inletNotHotter 20 25) ∧
    calculate_cooling_capacity 5 25.1 25 = .ok 0 ∧
    calculate_cooling_capacity 5 30 25 = .ok ((5:ℝ) / 60 * 4.186 * (30 - 25)) :=
  ⟨capacity_edge_case_policy.1 0 30 25 (by norm_num),
    capacity_edge_case_policy.2.1 5 20 25 (by norm_num) (by norm_num),
    capacity_edge_case_policy.2.2.1 5 25.1 25 (by norm_num) (by norm_num)
      (by norm_num [abs_le]),
    capacity_edge_case_policy.2.2.2 5 30 25 (by norm_num) (by norm_num)⟩

/-- Claim C8: wet_bulb_stull rejects humidity outside [0,100] with the
humidity bound error carrying the offending value, rejects temperature
outside [-50,60] with the temperature bound error carrying the offending
value, and inside both bounds returns exactly the Stull (2011) closed
formula; being a function of its two arguments it is deterministic and
side-effect free. -/
theorem wet_bulb_bounds_and_formula :
    (∀ T RH : ℝ, RH < 0 ∨ RH > 100 →
      wet_bulb_stull T RH = .error (.humidityOutOfRange RH)) ∧
    (∀ T RH : ℝ, 0 ≤ RH → RH ≤ 100 → T < -50 ∨ T > 60 →
      wet_bulb_stull T RH = .error (.tempOutOfRange T)) ∧
    (∀ T RH : ℝ, 0 ≤ RH → RH ≤ 100 → -50 ≤ T → T ≤ 60 →
      wet_bulb_stull T RH =
        .ok (T * Real.arctan (0.151977 * Real.sqrt (RH + 8.313659))
          + Real.arctan (T + RH) - Real.arctan (RH - 1.676331)
          + 0.00391838 * RH ^ (1.5:ℝ) * Real.arctan (0.023101 * RH)
          - 4.686035)) := by
  refine ⟨?_, ?_, ?_⟩
  · intro T RH h
    simp only [wet_bulb_stull]
    rw [if_pos h]
  · intro T RH h1 h2 h
    simp only [wet_bulb_stull]
    rw [if_neg (by push_neg; exact ⟨h1, h2⟩), if_pos h]
  · intro T RH h1 h2 h3 h4
    simp only [wet_bulb_stull]
    rw [if_neg (by push_neg; exact ⟨h1, h2⟩), if_neg (by push_neg; exact ⟨h3, h4⟩)]

/-- Witness for C8: humidity 150 rejected, temperature 70 rejected, and
the in-range pair (28.6, 49.5) mapped to the Stull formula value. -/
theorem wet_bulb_bounds_and_formula_witness :
    wet_bulb_stull 28.6 150 = .error (.humidityOutOfRange 150) ∧
    wet_bulb_stull 70 49.5 = .error (.tempOutOfRange 70) ∧
    wet_bulb_stull 28.6 49.5 =
      .ok ((28.6:ℝ) * Real.arctan (0.151977 * Real.sqrt ((49.5:ℝ) + 8.313659))
        + Real.arctan ((28.6:ℝ) + 49.5) - Real.arctan ((49.5:ℝ) - 1.676331)
        + 0.00391838 * (49.5:ℝ) ^ (1.5:ℝ) * Real.arctan (0.023101 * (49.5:ℝ))
        - 4.686035) :=
  ⟨wet_bulb_bounds_and_formula.1 28.6 150 (by norm_num),
    wet_bulb_bounds_and_formula.2.1 70 49.5 (by norm_num) (by norm_num) (by norm_num),
    wet_bulb_bounds_and_formula.2.2 28.6 49.5 (by norm_num) (by norm_num) (by norm_num)
      (by norm_num)⟩

/-- Claim C9: the source quality assessment reproduces the scoring table
of the specification exactly for all four inputs. -/
theorem assess_quality_matches_spec_table :
    ∀ tin tout flow hum : ℝ,
      assess_data_quality tin tout flow hum = assess_quality_spec tin tout flow hum := by
  intro tin tout flow hum
  rfl

/-- Claim C1: once validation passes, process_data always returns a
ProcessedReading (never an ErrorRecord), whose cooling_capacity field is
determined by the capacity computation on flow and water temperatures
alone and whose wet-bulb field is determined by the wet-bulb computation
alone, so no calculation failure prevents the others or the record. -/
theorem process_always_produces_record (r : RawReading) (h : passes_validation r) :
    process_data r = .processed (build_processed r) ∧
    (build_processed r).cooling_capacity =
      (calculate_cooling_capacity (optToR r.flow_rate) (optToR r.water_temp_inlet)
        (optToR r.water_temp_outlet)).toOption.map (pyround · 2) ∧
    (build_processed r).wet_bulb_temp_in =
      (wet_bulb_stull (optToR r.air_temp_inlet)
        (optToR r.air_humidity_inlet)).toOption.map (pyround · 2) := by
  obtain ⟨h1, h2, h3, h4⟩ := h
  exact ⟨process_data_eq_of_valid r h1 h2 h3 h4,
    build_processed_cooling_capacity r, build_processed_wet_bulb r⟩

/-- Witness for C1 at the worked example reading of the specification. -/
theorem process_always_produces_record_witness :
    process_data rW1 = .processed (build_processed rW1) ∧
    (build_processed rW1).cooling_capacity =
      (calculate_cooling_capacity (optToR rW1.flow_rate) (optToR rW1.water_temp_inlet)
        (optToR rW1.water_temp_outlet)).toOption.map (pyround · 2) ∧
    (build_processed rW1).wet_bulb_temp_in =
      (wet_bulb_stull (optToR rW1.air_temp_inlet)
        (optToR rW1.air_humidity_inlet)).toOption.map (pyround · 2) :=
  process_always_produces_record rW1
    ⟨rfl, by norm_num [invalid_fields, List.filterMap_cons, RawReading.numeric_required, rW1],
      by norm_num [optToR, rW1], by norm_num [optToR, rW1]⟩

/-- Claim C2: on every input on which process_data produces a
ProcessedReading, processing_status equals success exactly when
calculation_errors is empty, and equals partial_success exactly when it is
nonempty. -/
theorem status_success_iff_no_errors (r : RawReading) (p : ProcessedReading)
    (h : process_data r = .processed p) :
    (p.processing_status = "success" ↔ p.calculation_errors = []) ∧
    (p.processing_status = "partial_success" ↔ p.calculation_errors ≠ []) := by
  have hp : build_processed r = p := by
    unfold process_data at h
    split_ifs at h
    all_goals simp_all
  subst hp
  constructor
  · show statusOf (build_processed r).calculation_errors = "success" ↔ _
    cases hE : (build_processed r).calculation_errors with
    | nil => simp [statusOf]
    | cons a t => simp [statusOf]
  · show statusOf (build_processed r).calculation_errors = "partial_success" ↔ _
    cases hE : (build_processed r).calculation_errors with
    | nil => simp [statusOf]
    | cons a t => simp [statusOf]

/-- Witness for C2 at a validated reading with a failing wet-bulb step. -/
theorem status_success_iff_no_errors_witness :
    (((build_processed rEx2).processing_status = "success" ↔
      (build_processed rEx2).calculation_errors = []) ∧
     ((build_processed rEx2).processing_status = "partial_success" ↔
      (build_processed rEx2).calculation_errors ≠ [])) :=
  status_success_iff_no_errors rEx2 (build_processed rEx2)
    (process_data_eq_of_valid rEx2 rfl
      (by norm_num [invalid_fields, List.filterMap_cons, RawReading.numeric_required, rEx2])
      (by norm_num [optToR, rEx2]) (by norm_num [optToR, rEx2]))

/-- Claim C3: on a validated reading whose wet-bulb computation fails, the
record has a null wet-bulb field, the efficiency step is recorded as
failed with the wet-bulb-unavailable efficiency error (never computed),
efficiency is null, cooling capacity still comes from the capacity
computation on flow and water temperatures, and the status is
partial_success. -/
theorem wet_bulb_failure_isolated (r : RawReading) (e : CalcErr)
    (h : passes_validation r)
    (hwb : wet_bulb_stull (optToR r.air_temp_inlet) (optToR r.air_humidity_inlet) =
      .error e) :
    ∃ p, process_data r = .processed p ∧
      p.wet_bulb_temp_in = none ∧
      p.cooling_efficiency = none ∧
      CalcErrorMsg.cooling_efficiency_calculation_error .wetBulbUnavailable ∈
        p.calculation_errors ∧
      p.cooling_capacity = (calculate_cooling_capacity (optToR r.flow_rate)
        (optToR r.water_temp_inlet) (optToR r.water_temp_outlet)).toOption.map
          (pyround · 2) ∧
      p.processing_status = "partial_success" := by
  obtain ⟨h1, h2, h3, h4⟩ := h
  refine ⟨build_processed r, process_data_eq_of_valid r h1 h2 h3 h4, ?_, ?_, ?_,
    build_processed_cooling_capacity r, ?_⟩
  · rw [build_processed_wet_bulb, hwb]; rfl
  · simp [build_processed, hwb, Except.toOption]
  · simp [build_processed, hwb]
  · simp [build_processed, hwb, statusOf]

/-- Witness for C3 at the reading with air temperature 100°C. -/
theorem wet_bulb_failure_isolated_witness :
    ∃ p, process_data rW3 = .processed p ∧
      p.wet_bulb_temp_in = none ∧
      p.cooling_efficiency = none ∧
      CalcErrorMsg.cooling_efficiency_calculation_error .wetBulbUnavailable ∈
        p.calculation_errors ∧
      p.cooling_capacity = (calculate_cooling_capacity (optToR rW3.flow_rate)
        (optToR rW3.water_temp_inlet) (optToR rW3.water_temp_outlet)).toOption.map
          (pyround · 2) ∧
      p.processing_status = "partial_success" :=
  wet_bulb_failure_isolated rW3 (.tempOutOfRange 100)
    ⟨rfl, by norm_num [invalid_fields, List.filterMap_cons, RawReading.numeric_required, rW3],
      by norm_num [optToR, rW3], by norm_num [optToR, rW3]⟩
    (by norm_num [wet_bulb_stull, optToR, rW3])

/-- Claim C6 counterexample: a reading with water_temp_inlet missing and
flow_rate = -999 has offenders of both classes, yet the produced
data_validation_error message lists only the missing field and does not
name the invalid one. -/
theorem validation_both_classes_counterexample :
    missing_fields r6ce = ["water_temp_in"] ∧
    invalid_fields r6ce = ["water_flow_lpm"] ∧
    process_data r6ce = .errored ⟨"data_validation_error",
      .missingRequiredFields ["water_temp_in"], "failed"⟩ ∧
    "water_flow_lpm" ∉
      (ValidationMsg.missingRequiredFields ["water_temp_in"]).namedFields := by
  have hm : missing_fields r6ce = ["water_temp_in"] := rfl
  have hi : invalid_fields r6ce = ["water_flow_lpm"] := by
    norm_num [invalid_fields, List.filterMap_cons, RawReading.numeric_required, r6ce]
  refine ⟨hm, hi, ?_, by decide⟩
  unfold process_data
  rw [if_pos (by rw [hm]; simp), hm]

/-- Claim C6 amended: within one failure class every offending field name
is aggregated, but the two classes are reported separately with missing
taking precedence: when any required field is missing the
data_validation_error message lists exactly the missing fields, and only
when none is missing does an invalid field produce a message listing all
invalid fields. -/
theorem validation_error_reporting :
    (∀ r : RawReading, missing_fields r ≠ [] →
      process_data r = .errored ⟨"data_validation_error",
      .missingRequiredFields (missing_fields r), "failed"⟩) ∧
    (∀ r : RawReading, missing_fields r = [] → invalid_fields r ≠ [] →
      process_data r = .errored ⟨"data_validation_error",
      .invalidSensorData (invalid_fields r), "failed"⟩) := by
  constructor
  · intro r h
    unfold process_data
    rw [if_pos h]
  · intro r h1 h2
    unfold process_data
    rw [if_neg (by simp [h1]), if_pos h2]

/-- Witness for the amended C6: the mixed reading reports its missing
field, and a reading with two invalid fields reports the aggregated
invalid list. -/
theorem validation_error_reporting_witness :
    process_data r6ce = .errored ⟨"data_validation_error",
      .missingRequiredFields (missing_fields r6ce), "failed"⟩ ∧
    process_data r6inv = .errored ⟨"data_validation_error",
      .invalidSensorData (invalid_fields r6inv), "failed"⟩ :=
  ⟨validation_error_reporting.1 r6ce
      (by rw [show missing_fields r6ce = ["water_temp_in"] from rfl]; simp),
    validation_error_reporting.2 r6inv rfl
      (by
        rw [show invalid_fields r6inv = ["water_flow_lpm", "air_humidity_in"] by
          norm_num [invalid_fields, List.filterMap_cons, RawReading.numeric_required, r6inv]]
        simp)⟩

/-- Claim C7 counterexample: with device_id absent and flow_rate = -999,
process_data returns a data_validation_error naming only device_id, not
the sentinel-carrying field. -/
theorem sentinel_counterexample :
    r7ce.flow_rate = some (Val.num (-999)) ∧
    process_data r7ce = .errored ⟨"data_validation_error",
      .missingRequiredFields ["device_id"], "failed"⟩ ∧
    "water_flow_lpm" ∉
      (ValidationMsg.missingRequiredFields ["device_id"]).namedFields := by
  have hm : missing_fields r7ce = ["device_id"] := rfl
  refine ⟨rfl, ?_, by decide⟩
  unfold process_data
  rw [if_pos (by rw [hm]; simp), hm]

/-- Claim C7 amended: on a reading with no missing required field, any
required numeric field equal to -999 makes process_data return a
data_validation_error whose message names that field (aggregated with the
other invalid fields), and no calculation runs; when a required field is
also missing, the message lists the missing fields instead. -/
theorem sentinel_field_reported (r : RawReading) (name : String)
    (h1 : missing_fields r = [])
    (hmem : (name, some (Val.num (-999))) ∈ r.numeric_required) :
    process_data r = .errored ⟨"data_validation_error",
      .invalidSensorData (invalid_fields r), "failed"⟩ ∧
    name ∈ (ValidationMsg.invalidSensorData (invalid_fields r)).namedFields := by
  have hn : name ∈ invalid_fields r :=
    List.mem_filterMap.mpr ⟨(name, some (.num (-999))), hmem, by simp⟩
  refine ⟨?_, by simpa [ValidationMsg.namedFields] using hn⟩
  unfold process_data
  rw [if_neg (by simp [h1]), if_pos (List.ne_nil_of_mem hn)]

/-- Witness for the amended C7 at the reading whose only offender is the
sentinel flow_rate = -999. -/
theorem sentinel_field_reported_witness :
    process_data r7w = .errored ⟨"data_validation_error",
      .invalidSensorData (invalid_fields r7w), "failed"⟩ ∧
    "water_flow_lpm" ∈
      (ValidationMsg.invalidSensorData (invalid_fields r7w)).namedFields :=
  sentinel_field_reported r7w "water_flow_lpm" rfl
    (by simp [RawReading.numeric_required, r7w])

/-- Claim C10: a reading with flow_rate exactly 0 and the other required
fields valid passes validation (the range check rejects only negative
flow), the capacity computation then fails its own nonpositive-flow
precondition, and the record carries a null cooling_capacity, a
cooling-capacity calculation error, and status partial_success. -/
theorem zero_flow_partial_success (r : RawReading)
    (hflow : r.flow_rate = some (Val.num 0))
    (h1 : missing_fields r = []) (h2 : invalid_fields r = [])
    (h4 : ¬ (optToR r.air_humidity_inlet < 0 ∨ optToR r.air_humidity_inlet > 100)) :
    process_data r = .processed (build_processed r) ∧
    (build_processed r).cooling_capacity = none ∧
    CalcErrorMsg.cooling_capacity_calculation_error (.flowNotPositive 0) ∈
      (build_processed r).calculation_errors ∧
    (build_processed r).processing_status = "partial_success" := by
  have hflow0 : optToR r.flow_rate = 0 := by rw [hflow]; rfl
  have hcap : calculate_cooling_capacity (optToR r.flow_rate) (optToR r.water_temp_inlet)
      (optToR r.water_temp_outlet) = .error (.flowNotPositive 0) := by
    rw [hflow0]
    simp only [calculate_cooling_capacity]
    rw [if_pos le_rfl]
  refine ⟨process_data_eq_of_valid r h1 h2 (by rw [hflow0]; norm_num) h4, ?_, ?_, ?_⟩
  · rw [build_processed_cooling_capacity, hcap]; rfl
  · simp [build_processed, hcap]
  · have hne : (build_processed r).calculation_errors ≠ [] := by
      simp [build_processed, hcap]
    have hst : (build_processed r).processing_status =
      statusOf (build_processed r).calculation_errors := rfl
    rw [hst]
    exact statusOf_ne_nil hne

/-- Witness for C10 at the zero-flow reading. -/
theorem zero_flow_partial_success_witness :
    process_data rW10 = .processed (build_processed rW10) ∧
    (build_processed rW10).cooling_capacity = none ∧
    CalcErrorMsg.cooling_capacity_calculation_error (.flowNotPositive 0) ∈
      (build_processed rW10).calculation_errors ∧
    (build_processed rW10).processing_status = "partial_success" :=
  zero_flow_partial_success rW10 rfl rfl
    (by norm_num [invalid_fields, List.filterMap_cons, RawReading.numeric_required, rW10])
    (by norm_num [optToR, rW10])

end CoolingTower
